import Mathlib

/-!
# Verification of the SmartBite food-delivery application logic

Shallow embedding of the client-side service functions
(`src/services/supabase-api.ts`), the state containers
(`src/contexts/OrderContext.tsx`, `MenuContext`, `RestaurantContext`) and the
schema-layer review policy
(`supabase/migrations/20251005022227_create_initial_schema.sql`), together
with proofs of the behavioural properties of the specification.

Numeric values (prices, fees, ratings) are embedded as rationals `ℚ`; the
source works with IEEE doubles, but every computation the claims touch
(sums, means, comparisons on exact decimal inputs) is exact in the ranges of
interest.  `parseFloat` applied to a value that is already a number is the
identity and is embedded as such.  Remote transport failures are outside the
embedding: the backing store is carried explicitly as a `DB` value, and each
remote round trip a container function issues is recorded in an explicit
`RemoteOp` trace so that "no remote call is made" is a provable statement.
-/

/-- Order lifecycle status domain, from the `status` check constraint and the
TypeScript union type. -/
inductive OrderStatus where
  | pending
  | confirmed
  | preparing
  | ready
  | delivering
  | delivered
  | cancelled
deriving DecidableEq, Repr

/-- One line item of an order, from `OrderItem` in `OrderContext.tsx`. -/
structure OrderItem where
  menu_item_id : String
  quantity : ℕ
  price : ℚ
  name : String
deriving DecidableEq, Repr

/-- A row of the `orders` table (also used for the cached copies held by the
order context; the context's optional display-only extras are omitted). -/
structure OrderRow where
  id : String
  customer_id : String
  restaurant_id : String
  driver_id : Option String
  status : OrderStatus
  items : List OrderItem
  subtotal : ℚ
  delivery_fee : ℚ
  total : ℚ
  delivery_address : String
  customer_phone : String
  notes : Option String
  created_at : String
  updated_at : String
deriving DecidableEq, Repr

/-- A row of the `reviews` table. -/
structure ReviewRow where
  id : String
  restaurant_id : String
  customer_id : String
  order_id : String
  rating : ℚ
  comment : Option String
deriving DecidableEq, Repr

/-- A row of the `restaurants` table (fields the verified logic touches). -/
structure RestaurantRow where
  id : String
  user_id : String
  name : String
  rating : ℚ
  delivery_fee : ℚ
  min_order : ℚ
  is_active : Bool
deriving DecidableEq, Repr

/-- A row of the `users` table. -/
structure UserRow where
  id : String
  email : String
  password_hash : String
  name : String
  role : String
  phone : Option String
  town : Option String
deriving DecidableEq, Repr

/-- The authenticated-user view returned by the auth service. -/
structure User where
  id : String
  email : String
  name : String
  role : String
  phone : Option String
  town : Option String
deriving DecidableEq, Repr

/-- The backing relational store. -/
structure DB where
  users : List UserRow
  restaurants : List RestaurantRow
  orders : List OrderRow
  reviews : List ReviewRow
deriving Repr

/-- The rating values of all reviews of one restaurant, as fetched by
`select('rating').eq('restaurant_id', restaurantId)`. -/
def restaurantRatings (db : DB) (restaurantId : String) : List ℚ :=
  (db.reviews.filter (fun r => r.restaurant_id == restaurantId)).map (·.rating)

namespace reviewService

/-- Embeds `reviewService.updateRestaurantRating` (supabase-api.ts, lines
348-361):
fetch all rating values for the restaurant; if at least one exists, write
`sum / count` into the restaurant's `rating` column; otherwise do nothing. -/
def updateRestaurantRating (db : DB) (restaurantId : String) : DB :=
  let ratings := restaurantRatings db restaurantId
  if ratings.length > 0 then
    let avgRating := ratings.sum / (ratings.length : ℚ)
    { db with
      restaurants := db.restaurants.map (fun r =>
        if r.id == restaurantId then { r with rating := avgRating } else r) }
  else
    db

end reviewService

/-- Truthiness of an optional string, as JavaScript evaluates `if (x)` /
`x && …` for a value that is `undefined` or a string: `undefined` and the
empty string are falsy. -/
def truthyId : Option String → Bool
  | some d => !(d == "")
  | none => false

/-- JavaScript `x || null` / `x || undefined` on an optional string: the
empty string collapses to the null-ish value. -/
def orNull : Option String → Option String
  | some s => if s == "" then none else some s
  | none => none

/-- JavaScript `s.trim()`: strip leading and trailing whitespace
(approximated by `Char.isWhitespace`; the exotic Unicode space forms are
outside the inputs of interest).  Defined structurally over the character
list so that it evaluates on concrete inputs. -/
def jsTrim (s : String) : String :=
  String.mk
    (((s.data.dropWhile Char.isWhitespace).reverse.dropWhile
        Char.isWhitespace).reverse)

namespace authService

/-- Embeds `authService.login` (supabase-api.ts, lines 93-116).  The bcrypt
comparison is the external collaborator `verify`.  The `maybeSingle` email
lookup is embedded as `find?` (the schema makes `email` unique).  Remote
transport errors are outside the model; both in-logic failure branches are
embedded. -/
def login (db : DB) (verify : String → String → Bool)
    (email password : String) : Except String User :=
  match db.users.find? (fun u => u.email == email) with
  | none => .error "Invalid credentials"
  | some u =>
    if verify password u.password_hash then
      .ok { id := u.id, email := u.email, name := u.name, role := u.role,
            phone := orNull u.phone, town := orNull u.town }
    else
      .error "Invalid credentials"

end authService

namespace orderService

/-- Embeds `orderService.updateOrderStatus` (supabase-api.ts, lines 301-311):
build
`updates = { status }`, add `driver_id` only when `driverId` is truthy, and
apply to the row whose `id` matches.  No transition-graph check of any kind
is performed. -/
def updateOrderStatus (db : DB) (orderId : String) (status : OrderStatus)
    (driverId : Option String) : DB :=
  { db with
    orders := db.orders.map (fun o =>
      if o.id == orderId then
        { o with
          status := status,
          driver_id := if truthyId driverId then driverId else o.driver_id }
      else o) }

/-- Embeds `orderService.createOrder` (supabase-api.ts, lines 279-299):
insert a row
with status `'pending'` and the caller-supplied fields (`parseFloat` of a
value that is already a number is the identity and is embedded as such;
`notes || null` collapses an empty note).  Returns the new store and the
inserted row. -/
def createOrder (db : DB) (newId now : String)
    (customer_id restaurant_id : String) (items : List OrderItem)
    (subtotal delivery_fee total : ℚ)
    (delivery_address customer_phone : String) (notes : Option String) :
    DB × OrderRow :=
  let row : OrderRow :=
    { id := newId
      customer_id := customer_id
      restaurant_id := restaurant_id
      driver_id := none
      status := .pending
      items := items
      subtotal := subtotal
      delivery_fee := delivery_fee
      total := total
      delivery_address := delivery_address
      customer_phone := customer_phone
      notes := orNull notes
      created_at := now
      updated_at := now }
  ({ db with orders := db.orders ++ [row] }, row)

end orderService

/-- One remote round trip issued by a state-container function. -/
inductive RemoteOp where
  | updateOrder (orderId : String) (status : OrderStatus)
      (driverId : Option String)
  | insertOrder (orderId : String)
  | fetchOrders (which : String)
deriving DecidableEq, Repr

/-- The order state container (`OrderProvider` in OrderContext.tsx): the
authenticated user from the auth context, the cached order list, the
loading/error flags, and the backing store the service functions act on. -/
structure CtxState where
  db : DB
  user : Option User
  cachedOrders : List OrderRow
  loading : Bool
  error : Option String

namespace OrderContext

/-- Caller-supplied order data (`orderData`), with the shapes the creation
path reads: optional strings model absent-or-string fields, the item list
models `items` (absent ≈ empty). -/
structure OrderInput where
  restaurant_id : Option String
  items : List OrderItem
  subtotal : ℚ
  delivery_fee : ℚ
  total : ℚ
  delivery_address : Option String
  customer_phone : Option String
  notes : Option String

/-- Embeds `!x?.trim()`: the field is absent, empty, or whitespace-only. -/
def trimFalsy : Option String → Bool
  | none => true
  | some s => jsTrim s == ""

/-- Embeds `createOrder` (OrderContext.tsx, lines 59-105): require a user,
collect
validation errors, throw their join if any, otherwise call
`orderService.createOrder` with `customer_id := user.id`.  (The follow-up
cache refresh for customers is a separate fetch and not needed by any
claim.) -/
def createOrder (st : CtxState) (newId now : String) (d : OrderInput) :
    Except String (CtxState × OrderRow) :=
  match st.user with
  | none => .error "User not authenticated"
  | some u =>
    let errs : List String :=
      (if !(truthyId d.restaurant_id) then ["Restaurant is required"] else [])
      ++ (if d.items.isEmpty then ["Order items are required"] else [])
      ++ (if trimFalsy d.delivery_address then ["Delivery address is required"]
          else [])
      ++ (if trimFalsy d.customer_phone then ["Phone number is required"]
          else [])
    if errs.isEmpty then
      let res := orderService.createOrder st.db newId now u.id
        (d.restaurant_id.getD "") d.items d.subtotal d.delivery_fee d.total
        (d.delivery_address.getD "") (d.customer_phone.getD "") d.notes
      .ok ({ st with db := res.1 }, res.2)
    else
      .error (String.intercalate ", " errs)

/-- The in-place cache patch of `updateOrderStatus` (OrderContext.tsx, lines
114-118): `{ ...order, status, updated_at: now, ...(driverId &&
{ driver_id: driverId }) }` on the matching row, every other row untouched. -/
def patchOrders (orders : List OrderRow) (orderId : String)
    (status : OrderStatus) (driverId : Option String) (now : String) :
    List OrderRow :=
  orders.map (fun o =>
    if o.id == orderId then
      { o with
        status := status,
        updated_at := now,
        driver_id := if truthyId driverId then driverId else o.driver_id }
    else o)

/-- Embeds `updateOrderStatus` (OrderContext.tsx, lines 107-127): clear the
error,
issue the single remote status update, then patch the cached list in place —
no re-fetch is issued.  The embedding covers the success path of the `try`;
a remote rejection would skip the patch. -/
def updateOrderStatus (st : CtxState) (orderId : String)
    (status : OrderStatus) (driverId : Option String) (now : String) :
    CtxState × List RemoteOp :=
  ({ st with
      db := orderService.updateOrderStatus st.db orderId status driverId,
      cachedOrders := patchOrders st.cachedOrders orderId status driverId now,
      error := none },
   [RemoteOp.updateOrder orderId status driverId])

/-- Embeds `acceptDelivery` (OrderContext.tsx, lines 205-227): require a
user, then
call `orderService.updateOrderStatus(orderId, 'delivering', user.id)` and
patch the cached row to status `'delivering'` with `driver_id := user.id`.
No precondition on the order's current driver is checked anywhere. -/
def acceptDelivery (st : CtxState) (orderId now : String) :
    Except String (CtxState × List RemoteOp) :=
  match st.user with
  | none => .error "User not authenticated"
  | some u =>
    .ok
      ({ st with
          db := orderService.updateOrderStatus st.db orderId .delivering
            (some u.id),
          cachedOrders := st.cachedOrders.map (fun o =>
            if o.id == orderId then
              { o with status := .delivering, driver_id := some u.id,
                       updated_at := now }
            else o),
          error := none },
       [RemoteOp.updateOrder orderId .delivering (some u.id)])

/-- Embeds `getRestaurantOrders` (OrderContext.tsx, lines 150-170): after
the user
guard, the code binds `orderService.getRestaurantOrders` without ever
calling it (`const restaurant = await orderService.getRestaurantOrders.bind(
orderService)`) and sets `orderData = []`, so no remote fetch is issued and
the cache is set to the empty list. -/
def getRestaurantOrders (st : CtxState) : CtxState × List RemoteOp :=
  match st.user with
  | none => (st, [])
  | some _ =>
    ({ st with cachedOrders := [], loading := false, error := none }, [])

end OrderContext

namespace SchemaLayer

/-- The `WITH CHECK` clause of the RLS policy "Customers can create reviews
for own orders" (migration, lines 313-324): the requesting actor is the
review's customer, and an order row exists with the review's `order_id`,
owned by the actor, in status `'delivered'`. -/
def reviewPolicyCheck (authUid : String) (customer_id order_id : String)
    (orders : List OrderRow) : Bool :=
  (authUid == customer_id) &&
  orders.any (fun o =>
    o.id == order_id && o.customer_id == authUid &&
    o.status == OrderStatus.delivered)

/-- The `rating` column check constraint of the `reviews` table (migration,
lines 158-166): `rating >= 1 AND rating <= 5` on an integer column. -/
def ratingCheck (rating : ℤ) : Bool :=
  decide (1 ≤ rating) && decide (rating ≤ 5)

/-- Whether the schema/policy layer permits a review insert: the RLS policy
and the column check constraint must both pass. -/
def reviewInsertAccepted (authUid : String) (customer_id order_id : String)
    (rating : ℤ) (orders : List OrderRow) : Bool :=
  reviewPolicyCheck authUid customer_id order_id orders && ratingCheck rating

end SchemaLayer

/-- A JavaScript value in the positions the client-side validation reads:
null/undefined, a string, a finite number, `NaN`, or an array (only its
length matters to the checks). -/
inductive JSVal where
  | nullV
  | strV (s : String)
  | numV (q : ℚ)
  | nanV
  | arrV (len : ℕ)
deriving DecidableEq, Repr

namespace JSVal

/-- JavaScript truthiness: null/undefined, `''`, `0` and `NaN` are falsy;
every array (even `[]`) is truthy. -/
def truthy : JSVal → Bool
  | .nullV => false
  | .strV s => !(s == "")
  | .numV q => !(q == 0)
  | .nanV => false
  | .arrV _ => true

/-- Embeds `Array.isArray(v) && v.length === 0`. -/
def isEmptyArr : JSVal → Bool
  | .arrV 0 => true
  | _ => false

end JSVal

/-- The numeric value of a digit run. -/
def digitsVal (cs : List Char) : ℕ :=
  cs.foldl (fun a c => 10 * a + (c.toNat - 48)) 0

/-- JavaScript `Number(s)` on a plain decimal string: trim, optional sign,
integer digits, optional fraction.  `none` is `NaN`.  The whole-string parse
of `Number` is modelled (`Number('') = 0`, trailing junk is `NaN`); the
exponent, hex and `Infinity` forms are outside the inputs of interest. -/
def jsNumberOfString (s : String) : Option ℚ :=
  let t := jsTrim s
  if t == "" then some 0
  else
    let body : List Char :=
      match t.toList with
      | '-' :: r => r
      | '+' :: r => r
      | l => l
    let sgn : ℚ := match t.toList with | '-' :: _ => -1 | _ => 1
    let intPart := body.takeWhile (·.isDigit)
    let rest := body.drop intPart.length
    match rest with
    | [] =>
      if intPart.isEmpty then none else some (sgn * (digitsVal intPart : ℚ))
    | '.' :: frac =>
      if frac.all (·.isDigit) && !(intPart.isEmpty && frac.isEmpty) then
        some (sgn * ((digitsVal intPart : ℚ) +
          (digitsVal frac : ℚ) / ((10 : ℚ) ^ frac.length)))
      else none
    | _ => none

/-- JavaScript `Number(v)`; `none` is `NaN`.  `Number(null) = 0` and
`Number([]) = 0`; a non-empty array coerces through its joined string form,
which is not needed by any claim and is approximated as `NaN`. -/
def JSVal.toNumber : JSVal → Option ℚ
  | .nullV => some 0
  | .strV s => jsNumberOfString s
  | .numV q => some q
  | .nanV => none
  | .arrV n => if n == 0 then some 0 else none

/-- The first validation error produced by a `for (const field of
requiredFields)` loop: the first field whose value fails `fail` yields
`` `${field.replace('_', ' ')} is required` ``. -/
def requiredError {α : Type} (fail : JSVal → Bool)
    (fields : List (String × (α → JSVal))) (d : α) : Option String :=
  fields.findSome? (fun p =>
    if fail (p.2 d) then some ((p.1.replace "_" " ") ++ " is required")
    else none)

namespace RestaurantContext

/-- Embeds `restaurantData` as the creation path reads it. -/
structure RestaurantInput where
  name : JSVal
  description : JSVal
  town : JSVal
  address : JSVal
  phone : JSVal
  delivery_time : JSVal
  delivery_fee : JSVal
  min_order : JSVal
  categories : JSVal

/-- The required-field test of `createRestaurant` (part_000, lines 73-77):
`!restaurantData[field] || (Array.isArray(restaurantData[field]) &&
restaurantData[field].length === 0)`. -/
def restaurantFieldFail (v : JSVal) : Bool :=
  !v.truthy || v.isEmptyArr

/-- The field list of the `createRestaurant` required-field loop, in source
order (part_000, line 72). -/
def requiredFields : List (String × (RestaurantInput → JSVal)) :=
  [("name", (·.name)), ("description", (·.description)), ("town", (·.town)),
   ("address", (·.address)), ("phone", (·.phone)),
   ("delivery_time", (·.delivery_time)), ("delivery_fee", (·.delivery_fee)),
   ("min_order", (·.min_order)), ("categories", (·.categories))]

/-- Embeds `createRestaurant` (part_000, lines 64-101) up to the remote
write:
user guard, required-field loop, then the two numeric-range checks.  `.ok ()`
marks the point where `restaurantService.createRestaurant` — the remote
insert — is reached; every `.error` is thrown strictly before it. -/
def createRestaurant (user : Option User) (d : RestaurantInput) :
    Except String Unit :=
  match user with
  | none => .error "User not authenticated"
  | some _ =>
    match requiredError restaurantFieldFail requiredFields d with
    | some e => .error e
    | none =>
      match d.delivery_fee.toNumber with
      | none => .error "Valid delivery fee is required"
      | some q =>
        if q < 0 then .error "Valid delivery fee is required"
        else
          match d.min_order.toNumber with
          | none => .error "Valid minimum order amount is required"
          | some m =>
            if m < 0 then .error "Valid minimum order amount is required"
            else .ok ()

end RestaurantContext

namespace MenuContext

/-- Embeds `itemData` as `addMenuItem` reads it. -/
structure MenuItemInput where
  restaurant_id : JSVal
  name : JSVal
  description : JSVal
  price : JSVal
  category : JSVal

/-- The required-field test of `addMenuItem` (OrderContext.tsx file, MenuContext
part, lines 305-309): `!itemData[field] || (typeof itemData[field] ===
'string' && !itemData[field].trim())`. -/
def menuFieldFail (v : JSVal) : Bool :=
  !v.truthy || (match v with | .strV s => jsTrim s == "" | _ => false)

/-- The field list of the `addMenuItem` required-field loop, in source
order. -/
def requiredFields : List (String × (MenuItemInput → JSVal)) :=
  [("restaurant_id", (·.restaurant_id)), ("name", (·.name)),
   ("description", (·.description)), ("price", (·.price)),
   ("category", (·.category))]

/-- Embeds `addMenuItem` (MenuContext, lines 298-329) up to the remote
write:
required-field loop, then `isNaN(Number(price)) || Number(price) <= 0`.
`.ok ()` marks the point where `menuService.createMenuItem` — the remote
insert — is reached; every `.error` is thrown strictly before it. -/
def addMenuItem (d : MenuItemInput) : Except String Unit :=
  match requiredError menuFieldFail requiredFields d with
  | some e => .error e
  | none =>
    match d.price.toNumber with
    | none => .error "Valid item price is required"
    | some p =>
      if p ≤ 0 then .error "Valid item price is required"
      else .ok ()

end MenuContext

/-! Concrete sample values used to instantiate the theorems. -/

/-- A pending order that already has an assigned driver (`"d0"`). -/
def sampleOrder : OrderRow :=
  { id := "o1", customer_id := "c1", restaurant_id := "r1",
    driver_id := some "d0", status := .pending,
    items := [⟨"m1", 2, 5, "Pizza"⟩], subtotal := 10, delivery_fee := 2,
    total := 12, delivery_address := "1 Main St", customer_phone := "555",
    notes := none, created_at := "t0", updated_at := "t0" }

/-- A registered user row. -/
def sampleUserRow : UserRow :=
  { id := "u1", email := "a@example.com", password_hash := "hash1",
    name := "Alice", role := "customer", phone := none, town := none }

/-- A store holding one user and one order. -/
def sampleDB : DB :=
  { users := [sampleUserRow], restaurants := [], orders := [sampleOrder],
    reviews := [] }

/-- An authenticated delivery agent. -/
def sampleAgent : User :=
  { id := "driver9", email := "d@example.com", name := "Dana",
    role := "agent", phone := none, town := none }

/-- An order-context state: the agent is logged in and the cache mirrors the
store. -/
def sampleState : CtxState :=
  { db := sampleDB, user := some sampleAgent, cachedOrders := [sampleOrder],
    loading := false, error := none }

/-- An authenticated customer. -/
def customerA : User :=
  { id := "custA", email := "a@a.com", name := "A", role := "customer",
    phone := none, town := none }

/-- An order-context state with customer A logged in and an empty store. -/
def scenarioState : CtxState :=
  { db := { users := [], restaurants := [], orders := [], reviews := [] },
    user := some customerA, cachedOrders := [], loading := false,
    error := none }

/-- End-to-end scenario 1 input: qty 2 @ 5.00 plus qty 1 @ 3.00, delivery
fee 2.00, subtotal 13.00, total 15.00. -/
def scenarioInput : OrderContext.OrderInput :=
  { restaurant_id := some "rX",
    items := [⟨"mA", 2, 5, "Item A"⟩, ⟨"mB", 1, 3, "Item B"⟩],
    subtotal := 13, delivery_fee := 2, total := 15,
    delivery_address := some "2 High St", customer_phone := some "555-1234",
    notes := none }

/-- An otherwise-valid order input whose total (999) does not equal
subtotal + delivery fee (10 + 2). -/
def mismatchInput : OrderContext.OrderInput :=
  { restaurant_id := some "rX", items := [⟨"mA", 1, 10, "Item A"⟩],
    subtotal := 10, delivery_fee := 2, total := 999,
    delivery_address := some "2 High St", customer_phone := some "555-1234",
    notes := none }

/-- A restaurant-creation input with every required field present but a
negative delivery fee. -/
def negFeeRestaurant : RestaurantContext.RestaurantInput :=
  { name := .strV "Pasta", description := .strV "Nice",
    town := .strV "Town", address := .strV "1 Main St",
    phone := .strV "555", delivery_time := .strV "30-40 min",
    delivery_fee := .numV (-1), min_order := .numV 5,
    categories := .arrV 2 }

/-- A menu-item-creation input with a non-positive price. -/
def negPriceItem : MenuContext.MenuItemInput :=
  { restaurant_id := .strV "r1", name := .strV "Cake",
    description := .strV "Sweet", price := .numV (-2),
    category := .strV "Dessert" }

/-- A restaurant-creation input with a negative minimum order. -/
def negMinRestaurant : RestaurantContext.RestaurantInput :=
  { negFeeRestaurant with delivery_fee := .numV 3, min_order := .numV (-4) }

/-- A restaurant-creation input whose `name` field is the empty string. -/
def emptyNameRestaurant : RestaurantContext.RestaurantInput :=
  { negFeeRestaurant with name := .strV "", delivery_fee := .numV 3 }

/-- A menu-item-creation input whose `category` field is missing. -/
def noCategoryItem : MenuContext.MenuItemInput :=
  { negPriceItem with price := .numV 7, category := .nullV }

/-- C1: For every restaurant and every set of its review ratings,
`updateRestaurantRating` writes the arithmetic mean `sum / count` into the
restaurant's `rating` field when at least one review exists, and performs no
update at all (the whole store is unchanged) when no review exists. -/
theorem updateRestaurantRating_mean (db : DB) (rid : String) :
    (restaurantRatings db rid = [] → reviewService.updateRestaurantRating db rid = db) ∧
    (restaurantRatings db rid ≠ [] →
      ∀ r ∈ (reviewService.updateRestaurantRating db rid).restaurants, r.id = rid →
        r.rating = (restaurantRatings db rid).sum /
          ((restaurantRatings db rid).length : ℚ)) := by
  constructor
  · intro hempty
    unfold reviewService.updateRestaurantRating
    simp [hempty]
  · intro hne r hr hid
    unfold reviewService.updateRestaurantRating at hr
    have hlen : (restaurantRatings db rid).length > 0 :=
      List.length_pos.mpr hne
    simp only [hlen, if_pos] at hr
    rcases List.mem_map.mp hr with ⟨r₀, _, hmap⟩
    by_cases h0 : r₀.id == rid
    · simp [h0] at hmap
      subst hmap
      rfl
    · simp [h0] at hmap
      subst hmap
      exact absurd (by simpa using hid) (by simpa using h0)

/-- Witness for C1 at a concrete store: a restaurant with reviews rated 5 and
3 ends with rating 4, and a restaurant with no reviews is untouched. -/
theorem updateRestaurantRating_mean_witness :
    (restaurantRatings
        { users := [], restaurants := [⟨"r1", "u1", "Pasta", 0, 2, 10, true⟩],
          orders := [], reviews := [] } "r1" = [] →
      reviewService.updateRestaurantRating
        { users := [], restaurants := [⟨"r1", "u1", "Pasta", 0, 2, 10, true⟩],
          orders := [], reviews := [] } "r1" =
        { users := [], restaurants := [⟨"r1", "u1", "Pasta", 0, 2, 10, true⟩],
          orders := [], reviews := [] }) ∧
    ∀ r ∈ (reviewService.updateRestaurantRating
        { users := [], restaurants := [⟨"r1", "u1", "Pasta", 0, 2, 10, true⟩],
          orders := [],
          reviews := [⟨"v1", "r1", "c1", "o1", 5, none⟩,
                      ⟨"v2", "r1", "c1", "o2", 3, none⟩] } "r1").restaurants,
      r.id = "r1" → r.rating = 4 := by
  constructor
  · exact (updateRestaurantRating_mean _ "r1").1
  · intro r hr hid
    have h := (updateRestaurantRating_mean
      { users := [], restaurants := [⟨"r1", "u1", "Pasta", 0, 2, 10, true⟩],
        orders := [],
        reviews := [⟨"v1", "r1", "c1", "o1", 5, none⟩,
                    ⟨"v2", "r1", "c1", "o2", 3, none⟩] } "r1").2
      (by simp [restaurantRatings]) r hr hid
    rw [h]
    norm_num [restaurantRatings]

/-- C2: `orderService.updateOrderStatus` enforces no transition graph:
for every pair of statuses `(s, t)`, an order currently in status `s` is
taken to status `t`; the lifecycle logic rejects no pair. -/
theorem updateOrderStatus_any_transition (db : DB) (oid : String)
    (s t : OrderStatus) (d : Option String) :
    ((orderService.updateOrderStatus db oid t d).orders.length
        = db.orders.length) ∧
    (∀ (i : ℕ) (o : OrderRow), db.orders[i]? = some o → o.id = oid →
      o.status = s →
      ((orderService.updateOrderStatus db oid t d).orders[i]?).map
          OrderRow.status = some t) := by
  constructor
  · simp [orderService.updateOrderStatus]
  · intro i o ho hid _
    subst hid
    simp [orderService.updateOrderStatus, List.getElem?_map, ho]

/-- Witness for C2: the order `"o1"` of `sampleDB` is in status `pending`
and is taken directly to `cancelled`. -/
theorem updateOrderStatus_any_transition_witness :
    ((orderService.updateOrderStatus sampleDB "o1" OrderStatus.cancelled
        none).orders[0]?).map OrderRow.status =
      some OrderStatus.cancelled :=
  (updateOrderStatus_any_transition sampleDB "o1" OrderStatus.pending
    OrderStatus.cancelled none).2 0 sampleOrder rfl rfl rfl

/-- C3: For every order and every authenticated accepting actor,
`acceptDelivery` sets the order's status to `delivering` and its driver id to
the actor's own id — in the store and in the cache — with no check that the
order lacks an already-assigned driver: the conclusion holds for an order row
with an arbitrary prior `driver_id`. -/
theorem acceptDelivery_always_assigns (st : CtxState) (u : User)
    (oid now : String) (hu : st.user = some u) (hne : u.id ≠ "") :
    ∃ st' ops,
      OrderContext.acceptDelivery st oid now = .ok (st', ops) ∧
      ops = [RemoteOp.updateOrder oid .delivering (some u.id)] ∧
      (∀ (i : ℕ) (o : OrderRow), st.db.orders[i]? = some o → o.id = oid →
        st'.db.orders[i]? =
          some { o with status := .delivering, driver_id := some u.id }) ∧
      (∀ (i : ℕ) (o : OrderRow), st.cachedOrders[i]? = some o → o.id = oid →
        st'.cachedOrders[i]? =
          some { o with status := .delivering, driver_id := some u.id,
                        updated_at := now }) := by
  simp only [OrderContext.acceptDelivery, hu]
  refine ⟨_, _, rfl, rfl, ?_, ?_⟩
  · intro i o ho hid
    subst hid
    simp [orderService.updateOrderStatus, List.getElem?_map, ho, truthyId,
      hne]
  · intro i o ho hid
    subst hid
    simp [List.getElem?_map, ho]

/-- Witness for C3: the agent `"driver9"` accepts order `"o1"`, which
already has driver `"d0"` assigned; that driver is silently overwritten in
both the store and the cache. -/
theorem acceptDelivery_always_assigns_witness :
    ∃ st' ops,
      OrderContext.acceptDelivery sampleState "o1" "t1" = .ok (st', ops) ∧
      st'.db.orders[0]? =
        some { sampleOrder with status := .delivering,
                                driver_id := some "driver9" } ∧
      st'.cachedOrders[0]? =
        some { sampleOrder with status := .delivering,
                                driver_id := some "driver9",
                                updated_at := "t1" } := by
  obtain ⟨st', ops, hok, _, hdb, hcache⟩ :=
    acceptDelivery_always_assigns sampleState sampleAgent "o1" "t1" rfl
      (by decide)
  exact ⟨st', ops, hok, hdb 0 sampleOrder rfl rfl,
    hcache 0 sampleOrder rfl rfl⟩

/-- C7: A successful `updateOrderStatus` call patches the cached order
list in place without re-fetching: the single remote operation is the status
update (no fetch), the list keeps its length, the matching order gets the new
status, a refreshed `updated_at`, and `driver_id` only when a (truthy) driver
id was provided — all other fields via the record update leaving them
unchanged — and every order with a different id is returned untouched. -/
theorem ctx_updateOrderStatus_patches_in_place (st : CtxState) (oid : String)
    (t : OrderStatus) (d : Option String) (now : String) :
    ((OrderContext.updateOrderStatus st oid t d now).2 =
        [RemoteOp.updateOrder oid t d]) ∧
    (∀ w, RemoteOp.fetchOrders w ∉
        (OrderContext.updateOrderStatus st oid t d now).2) ∧
    ((OrderContext.updateOrderStatus st oid t d now).1.cachedOrders.length =
        st.cachedOrders.length) ∧
    (∀ (i : ℕ) (o : OrderRow), st.cachedOrders[i]? = some o →
      (o.id ≠ oid →
        (OrderContext.updateOrderStatus st oid t d now).1.cachedOrders[i]? =
          some o) ∧
      (o.id = oid →
        (OrderContext.updateOrderStatus st oid t d now).1.cachedOrders[i]? =
          some { o with
                  status := t, updated_at := now,
                  driver_id := if truthyId d then d else o.driver_id })) := by
  refine ⟨rfl, by simp [OrderContext.updateOrderStatus], ?_, ?_⟩
  · simp [OrderContext.updateOrderStatus, OrderContext.patchOrders]
  · intro i o ho
    constructor
    · intro hne
      simp [OrderContext.updateOrderStatus, OrderContext.patchOrders,
        List.getElem?_map, ho, hne]
    · intro hid
      subst hid
      simp [OrderContext.updateOrderStatus, OrderContext.patchOrders,
        List.getElem?_map, ho]

/-- Witness for C7: updating order `"o1"` of `sampleState` to `ready` with
driver `"driver9"` patches the single cached row in place — and an
unrelated id (`"zz"`) leaves the row untouched. -/
theorem ctx_updateOrderStatus_patches_in_place_witness :
    ((OrderContext.updateOrderStatus sampleState "o1" OrderStatus.ready
        (some "driver9") "t2").1.cachedOrders[0]? =
      some { sampleOrder with
              status := OrderStatus.ready, updated_at := "t2",
              driver_id := some "driver9" }) ∧
    ((OrderContext.updateOrderStatus sampleState "zz" OrderStatus.ready
        (some "driver9") "t2").1.cachedOrders[0]? = some sampleOrder) := by
  constructor
  · have h := ((ctx_updateOrderStatus_patches_in_place sampleState "o1"
      OrderStatus.ready (some "driver9") "t2").2.2.2 0 sampleOrder rfl).2 rfl
    simpa [truthyId] using h
  · exact ((ctx_updateOrderStatus_patches_in_place sampleState "zz"
      OrderStatus.ready (some "driver9") "t2").2.2.2 0 sampleOrder rfl).1
      (by decide)

/-- C4: Every order created through the creation path is created with
status `pending`, and the stored `items`, `subtotal`, `delivery_fee` and
`total` are exactly the caller-supplied values; the new row is appended to
the store. -/
theorem createOrder_pending_passthrough (st : CtxState) (u : User)
    (newId now : String) (d : OrderContext.OrderInput)
    (hu : st.user = some u)
    (hrid : truthyId d.restaurant_id = true)
    (hitems : d.items ≠ [])
    (haddr : OrderContext.trimFalsy d.delivery_address = false)
    (hphone : OrderContext.trimFalsy d.customer_phone = false) :
    ∃ st' row,
      OrderContext.createOrder st newId now d = .ok (st', row) ∧
      row.status = .pending ∧
      row.items = d.items ∧
      row.subtotal = d.subtotal ∧
      row.delivery_fee = d.delivery_fee ∧
      row.total = d.total ∧
      st'.db.orders = st.db.orders ++ [row] := by
  simp only [OrderContext.createOrder, hu, hrid, haddr, hphone]
  simp only [List.isEmpty_eq_true, hitems, orderService.createOrder,
    Bool.not_true, if_false, ite_false, List.append_nil, List.nil_append,
    Bool.false_eq_true, if_neg, not_false_eq_true, eq_self_iff_true,
    if_true, ite_true]
  exact ⟨_, _, rfl, rfl, rfl, rfl, rfl, rfl, rfl⟩

/-- Witness for C4, end-to-end scenario 1: customer A orders qty 2 @ 5.00
plus qty 1 @ 3.00 with delivery fee 2.00; the stored order has status
`pending`, subtotal 13 (= 2·5 + 1·3) and total 15 (= 13 + 2). -/
theorem createOrder_pending_passthrough_witness :
    scenarioInput.subtotal = 2 * 5 + 1 * 3 ∧
    scenarioInput.total = scenarioInput.subtotal + scenarioInput.delivery_fee ∧
    ∃ st' row,
      OrderContext.createOrder scenarioState "oNew" "t1" scenarioInput =
        .ok (st', row) ∧
      row.status = .pending ∧ row.subtotal = 13 ∧ row.total = 15 := by
  refine ⟨by norm_num [scenarioInput], by norm_num [scenarioInput], ?_⟩
  obtain ⟨st', row, hok, hst, _, hsub, _, htot, _⟩ :=
    createOrder_pending_passthrough scenarioState customerA "oNew" "t1"
      scenarioInput rfl rfl (by decide) (by decide) (by decide)
  exact ⟨st', row, hok, hst, by simp [hsub, scenarioInput],
    by simp [htot, scenarioInput]⟩

/-- C5 (amended): The creation path performs no check relating `total`
to `subtotal + delivery_fee`: an otherwise-valid input is accepted even when
`total ≠ subtotal + delivery_fee`, and the mismatched total is stored
unchanged. -/
theorem createOrder_no_total_check (st : CtxState) (u : User)
    (newId now : String) (d : OrderContext.OrderInput)
    (hu : st.user = some u)
    (hrid : truthyId d.restaurant_id = true)
    (hitems : d.items ≠ [])
    (haddr : OrderContext.trimFalsy d.delivery_address = false)
    (hphone : OrderContext.trimFalsy d.customer_phone = false)
    (hmism : d.total ≠ d.subtotal + d.delivery_fee) :
    ∃ st' row,
      OrderContext.createOrder st newId now d = .ok (st', row) ∧
      row.total = d.total ∧
      row.total ≠ row.subtotal + row.delivery_fee := by
  simp only [OrderContext.createOrder, hu, hrid, haddr, hphone]
  simp only [List.isEmpty_eq_true, hitems, orderService.createOrder,
    Bool.not_true, if_false, ite_false, List.append_nil, List.nil_append,
    Bool.false_eq_true, if_neg, not_false_eq_true, eq_self_iff_true,
    if_true, ite_true]
  exact ⟨_, _, rfl, rfl, hmism⟩

/-- Counterexample to C5 as stated: the input `mismatchInput` has
`total = 999 ≠ 10 + 2 = subtotal + delivery_fee`, yet the creation path
neither rejects nor flags it — the order is created and the mismatched
total stored verbatim. -/
theorem createOrder_mismatch_accepted :
    mismatchInput.total ≠ mismatchInput.subtotal + mismatchInput.delivery_fee ∧
    ∃ st' row,
      OrderContext.createOrder scenarioState "o9" "t1" mismatchInput =
        .ok (st', row) ∧
      row.total = 999 := by
  refine ⟨by norm_num [mismatchInput], ?_⟩
  refine ⟨_, _, rfl, rfl⟩

/-- Witness for the amended C5 at the concrete mismatched input. -/
theorem createOrder_no_total_check_witness :
    ∃ st' row,
      OrderContext.createOrder scenarioState "o9" "t1" mismatchInput =
        .ok (st', row) ∧
      row.total = mismatchInput.total ∧
      row.total ≠ row.subtotal + row.delivery_fee :=
  createOrder_no_total_check scenarioState customerA "o9" "t1" mismatchInput
    rfl rfl (by decide) (by decide) (by decide) (by norm_num [mismatchInput])

/-- C9: For every logged-in user and every backing store state, the
order container's `getRestaurantOrders` issues no remote fetch (its remote
operation trace is empty) and always sets the cached order list to the empty
list. -/
theorem getRestaurantOrders_no_fetch_empty_cache (st : CtxState) (u : User)
    (hu : st.user = some u) :
    (OrderContext.getRestaurantOrders st).2 = [] ∧
    (OrderContext.getRestaurantOrders st).1.cachedOrders = [] := by
  simp [OrderContext.getRestaurantOrders, hu]

/-- Witness for C9: with the agent logged in and one order cached,
`getRestaurantOrders` issues nothing and wipes the cache. -/
theorem getRestaurantOrders_no_fetch_empty_cache_witness :
    (OrderContext.getRestaurantOrders sampleState).2 = [] ∧
    (OrderContext.getRestaurantOrders sampleState).1.cachedOrders = [] :=
  getRestaurantOrders_no_fetch_empty_cache sampleState sampleAgent rfl

/-- C10: Both in-logic failure branches of `authService.login` — no user
row for the email, and a user row whose password does not verify — throw an
error with the identical message `"Invalid credentials"`, so the caller
cannot tell an unknown account from a wrong password. -/
theorem login_uniform_invalid_credentials (db : DB)
    (verify : String → String → Bool) (email password : String) :
    (db.users.find? (fun u => u.email == email) = none →
      authService.login db verify email password =
        .error "Invalid credentials") ∧
    (∀ u : UserRow, db.users.find? (fun u => u.email == email) = some u →
      verify password u.password_hash = false →
      authService.login db verify email password =
        .error "Invalid credentials") := by
  constructor
  · intro h
    simp [authService.login, h]
  · intro u h hv
    simp [authService.login, h, hv]

/-- Witness for C10: against a store holding one user, a login with an
unknown email and a login with the right email but a failing password check
produce the very same error. -/
theorem login_uniform_invalid_credentials_witness :
    authService.login sampleDB (fun _ _ => false) "nobody@example.com" "pw" =
      .error "Invalid credentials" ∧
    authService.login sampleDB (fun _ _ => false) "a@example.com" "pw" =
      .error "Invalid credentials" :=
  ⟨(login_uniform_invalid_credentials sampleDB (fun _ _ => false)
      "nobody@example.com" "pw").1 rfl,
   (login_uniform_invalid_credentials sampleDB (fun _ _ => false)
      "a@example.com" "pw").2 sampleUserRow rfl rfl⟩

/-- C8: The schema/policy layer permits a review insert exactly when the
requesting actor is the review's customer, an order with the review's order
id belongs to that actor and is in status `delivered`, and the rating is an
integer in `[1, 5]`; a request violating any one of these is rejected. -/
theorem reviewInsertAccepted_iff (authUid customer_id order_id : String)
    (rating : ℤ) (orders : List OrderRow) :
    SchemaLayer.reviewInsertAccepted authUid customer_id order_id rating
        orders = true ↔
      (authUid = customer_id ∧
       (∃ o ∈ orders, o.id = order_id ∧ o.customer_id = authUid ∧
          o.status = OrderStatus.delivered) ∧
       (1 ≤ rating ∧ rating ≤ 5)) := by
  simp [SchemaLayer.reviewInsertAccepted, SchemaLayer.reviewPolicyCheck,
    SchemaLayer.ratingCheck, List.any_eq_true, and_assoc]

/-- A required-field loop reports an error as soon as one listed field fails
its test. -/
theorem requiredError_isSome_of_fail {α : Type} (fail : JSVal → Bool)
    (fields : List (String × (α → JSVal))) (d : α) (nm : String)
    (proj : α → JSVal) (hmem : (nm, proj) ∈ fields)
    (hfail : fail (proj d) = true) :
    (requiredError fail fields d).isSome = true := by
  unfold requiredError
  refine List.findSome?_isSome_iff.mpr ⟨(nm, proj), hmem, ?_⟩
  simp [hfail]

/-- A field value that is null/undefined or the empty string fails the
restaurant required-field test. -/
theorem restaurantFieldFail_of_empty (v : JSVal)
    (h : v = .nullV ∨ v = .strV "") :
    RestaurantContext.restaurantFieldFail v = true := by
  rcases h with h | h <;> subst h <;> rfl

/-- A field value that is null/undefined or the empty string fails the
menu-item required-field test. -/
theorem menuFieldFail_of_empty (v : JSVal)
    (h : v = .nullV ∨ v = .strV "") :
    MenuContext.menuFieldFail v = true := by
  rcases h with h | h <;> subst h <;> rfl

/-- C6: Restaurant creation with a negative delivery fee, a negative
minimum order, or an empty/missing required field, and menu-item creation
with a non-positive price or an empty/missing required field, all throw a
validation error strictly before the remote write (the `.ok` marking the
remote service call is never reached). -/
theorem validation_errors_before_remote (u : User)
    (rd : RestaurantContext.RestaurantInput)
    (md : MenuContext.MenuItemInput) :
    (∀ q : ℚ, rd.delivery_fee = .numV q → q < 0 →
      ∃ e, RestaurantContext.createRestaurant (some u) rd = .error e) ∧
    (∀ m : ℚ, rd.min_order = .numV m → m < 0 →
      ∃ e, RestaurantContext.createRestaurant (some u) rd = .error e) ∧
    (∀ nm (proj : RestaurantContext.RestaurantInput → JSVal),
      (nm, proj) ∈ RestaurantContext.requiredFields →
      (proj rd = .nullV ∨ proj rd = .strV "") →
      ∃ e, RestaurantContext.createRestaurant (some u) rd = .error e) ∧
    (∀ p : ℚ, md.price = .numV p → p ≤ 0 →
      ∃ e, MenuContext.addMenuItem md = .error e) ∧
    (∀ nm (proj : MenuContext.MenuItemInput → JSVal),
      (nm, proj) ∈ MenuContext.requiredFields →
      (proj md = .nullV ∨ proj md = .strV "") →
      ∃ e, MenuContext.addMenuItem md = .error e) := by
  refine ⟨?_, ?_, ?_, ?_, ?_⟩
  · intro q hfee hq
    cases hre : requiredError RestaurantContext.restaurantFieldFail
        RestaurantContext.requiredFields rd with
    | some e => exact ⟨e, by simp [RestaurantContext.createRestaurant, hre]⟩
    | none =>
      exact ⟨"Valid delivery fee is required",
        by simp [RestaurantContext.createRestaurant, hre, hfee,
          JSVal.toNumber, hq]⟩
  · intro m hmin hm
    cases hre : requiredError RestaurantContext.restaurantFieldFail
        RestaurantContext.requiredFields rd with
    | some e => exact ⟨e, by simp [RestaurantContext.createRestaurant, hre]⟩
    | none =>
      cases hfee : rd.delivery_fee.toNumber with
      | none =>
        exact ⟨"Valid delivery fee is required",
          by simp [RestaurantContext.createRestaurant, hre, hfee]⟩
      | some q =>
        by_cases hq : q < 0
        · exact ⟨"Valid delivery fee is required",
            by simp [RestaurantContext.createRestaurant, hre, hfee, hq]⟩
        · have hmin2 : rd.min_order.toNumber = some m := by
            rw [hmin, JSVal.toNumber]
          exact ⟨"Valid minimum order amount is required",
            by simp [RestaurantContext.createRestaurant, hre, hfee, hq,
              hmin2, hm]⟩
  · intro nm proj hmem hempty
    have hsome := requiredError_isSome_of_fail
      RestaurantContext.restaurantFieldFail RestaurantContext.requiredFields
      rd nm proj hmem (restaurantFieldFail_of_empty _ hempty)
    obtain ⟨e, he⟩ := Option.isSome_iff_exists.mp hsome
    exact ⟨e, by simp [RestaurantContext.createRestaurant, he]⟩
  · intro p hprice hp
    cases hre : requiredError MenuContext.menuFieldFail
        MenuContext.requiredFields md with
    | some e => exact ⟨e, by simp [MenuContext.addMenuItem, hre]⟩
    | none =>
      exact ⟨"Valid item price is required",
        by simp [MenuContext.addMenuItem, hre, hprice, JSVal.toNumber, hp]⟩
  · intro nm proj hmem hempty
    have hsome := requiredError_isSome_of_fail MenuContext.menuFieldFail
      MenuContext.requiredFields md nm proj hmem
      (menuFieldFail_of_empty _ hempty)
    obtain ⟨e, he⟩ := Option.isSome_iff_exists.mp hsome
    exact ⟨e, by simp [MenuContext.addMenuItem, he]⟩

/-- Witness for C6, exercising all five cases on concrete inputs: a negative
delivery fee, a negative minimum order, an empty restaurant name, a negative
item price, and a missing item category each abort before the remote
write. -/
theorem validation_errors_before_remote_witness :
    (∃ e, RestaurantContext.createRestaurant (some sampleAgent)
        negFeeRestaurant = .error e) ∧
    (∃ e, RestaurantContext.createRestaurant (some sampleAgent)
        negMinRestaurant = .error e) ∧
    (∃ e, RestaurantContext.createRestaurant (some sampleAgent)
        emptyNameRestaurant = .error e) ∧
    (∃ e, MenuContext.addMenuItem negPriceItem = .error e) ∧
    (∃ e, MenuContext.addMenuItem noCategoryItem = .error e) :=
  ⟨(validation_errors_before_remote sampleAgent negFeeRestaurant
      negPriceItem).1 (-1) rfl (by norm_num),
   (validation_errors_before_remote sampleAgent negMinRestaurant
      negPriceItem).2.1 (-4) rfl (by norm_num),
   (validation_errors_before_remote sampleAgent emptyNameRestaurant
      negPriceItem).2.2.1 "name" (·.name) (by simp
        [RestaurantContext.requiredFields]) (Or.inr rfl),
   (validation_errors_before_remote sampleAgent negFeeRestaurant
      negPriceItem).2.2.2.1 (-2) rfl (by norm_num),
   (validation_errors_before_remote sampleAgent negFeeRestaurant
      noCategoryItem).2.2.2.2 "category" (·.category) (by simp
        [MenuContext.requiredFields]) (Or.inl rfl)⟩
